import Mathlib

/-!
Verification of the SentinelX repository (Rust) against its natural-language
specification.  The definitions below are a shallow embedding of the code in
`sentinel-common`, `sentinel-server` and `sentinel-client`:

* pure Rust functions become Lean functions,
* stateful code (the server's client map, the relay manager's map, the task
  table) becomes explicit state passing over structures,
* `DateTime<Utc>` timestamps become `Int` (seconds),
* byte buffers become `List Nat`,
* fallible Rust functions returning `anyhow::Result` become `Except String`,
* randomness (nonce generation, token generation) becomes an explicit
  argument supplied by the caller,
* the external AEAD crates (`aes-gcm`, `chacha20poly1305`) are collaborator
  libraries outside this repository; their seal/open primitives are taken as
  function parameters, and theorems that need their correctness state it as a
  hypothesis.
-/

namespace Sentinel

/-! ## Data model: sentinel-common/src/types.rs -/

/-- `TaskType` from sentinel-common/src/types.rs. -/
inductive TaskType where
  | UpdateIptables
  | ConfigureProxy
  | StartRelay
  | StopRelay
  | UpdateConfig
deriving DecidableEq, Repr

/-- `Task` from sentinel-common/src/types.rs.  The `serde_json::Value`
payload is carried as an uninterpreted string; `created_at` is a
`DateTime<Utc>` modelled as seconds. -/
structure Task where
  id : String
  task_type : TaskType
  payload : String
  created_at : Int
deriving DecidableEq, Repr

/-- `TransportType` from sentinel-common/src/types.rs. -/
inductive TransportType where
  | Direct
  | Encrypted
  | WebSocket
deriving DecidableEq, Repr

/-- `RelayConfig` from sentinel-common/src/types.rs. -/
structure RelayConfig where
  entry_point : String
  exit_point : String
  transport_type : TransportType
deriving DecidableEq, Repr

/-- `ClientStatus` from sentinel-common/src/types.rs. -/
inductive ClientStatus where
  | Online
  | Offline
  | Error (reason : String)
deriving DecidableEq, Repr

/-- `SystemInfo` from sentinel-common/src/types.rs. -/
structure SystemInfo where
  os : String
  kernel_version : String
  cpu_cores : Nat
  total_memory : Nat
  total_disk : Nat
deriving DecidableEq, Repr

/-- `ClientInfo` from sentinel-common/src/types.rs. -/
structure ClientInfo where
  id : String
  hostname : String
  ip : String
  version : String
  capabilities : List String
  system_info : SystemInfo
deriving DecidableEq, Repr

/-- `SystemMetrics` from sentinel-common/src/types.rs.  The `f32` usage
percentages are floating point and are decided by no claim; they are carried
as uninterpreted integers here (the structure is only stored and forwarded by
the code modelled in this file, never computed with). -/
structure SystemMetrics where
  cpu_usage : Int
  memory_used : Nat
  memory_total : Nat
  memory_usage : Int
  disk_used : Nat
  disk_total : Nat
  disk_usage : Int
  network_rx_bytes : Nat
  network_tx_bytes : Nat
  network_rx_rate : Nat
  network_tx_rate : Nat
  timestamp : Int
deriving DecidableEq, Repr

/-! ## Protocol shapes: sentinel-common/src/protocol.rs -/

/-- `RegisterRequest` from sentinel-common/src/protocol.rs. -/
structure RegisterRequest where
  client_info : ClientInfo
deriving DecidableEq, Repr

/-- `RegisterResponse` from sentinel-common/src/protocol.rs. -/
structure RegisterResponse where
  client_id : String
  token : String
deriving DecidableEq, Repr

/-- `HeartbeatRequest` from sentinel-common/src/protocol.rs. -/
structure HeartbeatRequest where
  client_id : String
  token : String
  metrics : Option SystemMetrics
deriving DecidableEq, Repr

/-- `HeartbeatResponse` from sentinel-common/src/protocol.rs. -/
structure HeartbeatResponse where
  status : String
  tasks : List Task
deriving DecidableEq, Repr

/-! ## Rate limiter: sentinel-client/src/limiter.rs

`RateLimiter::wait_for_capacity` computes
`let permits = (bytes / 1024).max(1) as u32;` and then awaits `until_ready`
(one permit each) `permits` times; `try_consume` computes the same permit
count and checks it against the available budget via `check_n`. -/

/-- Permit sizing in `RateLimiter::wait_for_capacity`
(sentinel-client/src/limiter.rs line 19): `(bytes / 1024).max(1)`.
Rust `usize` division truncates, matching `Nat` division. -/
def wait_for_capacity_permits (bytes : Nat) : Nat :=
  max (bytes / 1024) 1

/-- Number of `until_ready` awaits performed by the loop
`for _ in 0..permits { self.limiter.until_ready().await; }` in
`wait_for_capacity`, modelled as the recursion the loop unrolls to. -/
def until_ready_calls : Nat → Nat
  | 0 => 0
  | n + 1 => until_ready_calls n + 1

/-- Permit sizing in `RateLimiter::try_consume`
(sentinel-client/src/limiter.rs line 27): `(bytes / 1024).max(1)`. -/
def try_consume_permits (bytes : Nat) : Nat :=
  max (bytes / 1024) 1

/-- `RateLimiter::try_consume`: `check_n` of the governor limiter succeeds
exactly when the current budget (in whole permits) covers the request; the
`else { true }` branch for a zero permit count is unreachable because the
permit count is at least 1. -/
def try_consume (budget : Nat) (bytes : Nat) : Bool :=
  try_consume_permits bytes ≤ budget

/-! ## Relay engine: sentinel-client/src/relay.rs

`RelayConnection::new` binds a `TcpListener` exactly when the entry point
string starts with `"0.0.0.0:"` or `"127.0.0.1:"`; otherwise the connection
is outbound-only (`listener = None`).  Binding an address already bound in
the process fails (`TcpListener::bind` returns an error propagated by `?`).
Address parsing is modelled as succeeding: the claims under study concern
well-formed addresses, and a parse failure would also be an `Err` from
`RelayConnection::new`, which the theorems treat the same way as a bind
failure. -/

/-- Process-level network state: the set of locally bound listen addresses.
`TcpListener::bind` fails on an address that is already bound. -/
structure NetState where
  bound : List String
deriving DecidableEq, Repr

/-- `RelayConnection` from sentinel-client/src/relay.rs: the relay's config
and the optional bound listener (`listener : Option<TcpListener>`), the
listener recorded by its bound address. -/
structure RelayConnection where
  config : RelayConfig
  listener : Option String
deriving DecidableEq, Repr

/-- Rust's `str::starts_with(pat)`: the pattern's characters are a prefix of
the string's characters. -/
def strStartsWith (s pat : String) : Bool :=
  pat.data.isPrefixOf s.data

/-- Whether `RelayConnection::new` takes the listener branch:
`config.entry_point.starts_with("0.0.0.0:") ||
 config.entry_point.starts_with("127.0.0.1:")`
(sentinel-client/src/relay.rs line 94). -/
def entryPointBindable (entry_point : String) : Bool :=
  strStartsWith entry_point "0.0.0.0:" || strStartsWith entry_point "127.0.0.1:"

/-- `RelayConnection::new` (sentinel-client/src/relay.rs lines 92-106):
binds a listener on the entry point when `entryPointBindable`, otherwise
constructs with `listener = None`. -/
def RelayConnection.new (net : NetState) (config : RelayConfig) :
    Except String (RelayConnection × NetState) :=
  if entryPointBindable config.entry_point then
    if net.bound.contains config.entry_point then
      .error "bind failed: address already in use"
    else
      .ok (⟨config, some config.entry_point⟩,
           ⟨config.entry_point :: net.bound⟩)
  else
    .ok (⟨config, none⟩, net)

/-- Association-list update used to model map insertion
(`HashMap::insert` / `DashMap::insert`): replaces the binding of an existing
key, otherwise appends a new binding. -/
def mapInsert {α : Type} (m : List (String × α)) (k : String) (v : α) :
    List (String × α) :=
  if m.any (fun e => e.1 == k) then
    m.map (fun e => if e.1 == k then (k, v) else e)
  else
    m ++ [(k, v)]

/-- `RelayManager` from sentinel-client/src/relay.rs: the
`active_relays: Arc<RwLock<HashMap<String, RelayConnection>>>` map, keyed by
relay id.  Each stored connection carries the generation at which it was
constructed (`gen`, incremented on every `RelayConnection::new`) so that
distinct constructions of structurally equal connections can be told apart,
as distinct heap objects are in the running program. -/
structure RelayManager where
  active_relays : List (String × (RelayConnection × Nat))
  next_gen : Nat
deriving DecidableEq, Repr

/-- `format!("{}:{}", config.entry_point, config.exit_point)` — the relay job
identity used as the `active_relays` key (sentinel-client/src/relay.rs
line 37). -/
def relayId (entry_point exit_point : String) : String :=
  entry_point ++ ":" ++ exit_point

/-- `RelayManager::start_relay` (sentinel-client/src/relay.rs lines 36-66):
unconditionally constructs a fresh `RelayConnection` (binding a listener when
the entry point is bindable) and inserts it into `active_relays` under the
pair's relay id, replacing any existing entry; a construction error is
propagated by `?` before the map is touched. -/
def start_relay (mgr : RelayManager) (net : NetState) (config : RelayConfig) :
    Except String (RelayManager × NetState) :=
  let relay_id := relayId config.entry_point config.exit_point
  match RelayConnection.new net config with
  | .error e => .error e
  | .ok (conn, net') =>
      .ok ({ active_relays := mapInsert mgr.active_relays relay_id (conn, mgr.next_gen),
             next_gen := mgr.next_gen + 1 }, net')

/-- `RelayManager::stop_relay` (sentinel-client/src/relay.rs lines 68-76):
removes the pair's entry from `active_relays`; always returns `Ok`. -/
def stop_relay (mgr : RelayManager) (entry_point exit_point : String) :
    RelayManager :=
  { mgr with
    active_relays :=
      mgr.active_relays.filter
        (fun e => !(e.1 == relayId entry_point exit_point)) }

/-! ## Outbound transport legs: sentinel-client/src/relay.rs lines 133-220

`handle_relay_connection` opens the outbound leg by matching on
`config.transport_type`.  All three arms — `connect_direct`,
`connect_encrypted` and `connect_websocket` — have Rust return type
`Result<TcpStream>` and return a raw TCP stream; `connect_encrypted` carries
a TODO comment saying the encryption wrapping is yet to be implemented, and
`connect_websocket` falls back to a plain TCP connection. -/

/-- The outbound leg value produced by the `connect_*` helpers.  The single
constructor mirrors the Rust return type `TcpStream`: a raw, unwrapped TCP
stream to the given address.  No constructor for an encrypted or WebSocket
wrapper exists because no code path in relay.rs produces one. -/
inductive Outbound where
  | tcpStream (addr : String)
deriving DecidableEq, Repr

/-- `RelayConnection::connect_direct` (relay.rs lines 157-162). -/
def connect_direct (exit_point : String) : Outbound :=
  .tcpStream exit_point

/-- `RelayConnection::connect_encrypted` (relay.rs lines 164-182): connects a
plain `TcpStream` to the exit point and returns it; the encryption wrapping
is a TODO comment and is never applied. -/
def connect_encrypted (exit_point : String) : Outbound :=
  .tcpStream exit_point

/-- Host extraction of `connect_websocket` (relay.rs lines 184-220): the
`ws://`/`wss://` URL prefix is stripped and the part before the first `/` is
used as the TCP address; a bare address gets `ws://{addr}/relay` formed and
stripped again, yielding the address back. -/
def websocketTcpAddr (exit_point : String) : String :=
  if strStartsWith exit_point "ws://" then
    ((exit_point.drop 5).splitOn "/").headD exit_point
  else if strStartsWith exit_point "wss://" then
    ((exit_point.drop 6).splitOn "/").headD exit_point
  else
    exit_point

/-- `RelayConnection::connect_websocket` (relay.rs lines 184-220): connects a
plain `TcpStream` to the extracted address (TCP fallback; the WebSocket
handshake is a TODO comment). -/
def connect_websocket (exit_point : String) : Outbound :=
  .tcpStream (websocketTcpAddr exit_point)

/-- The `match config.transport_type` in `handle_relay_connection`
(relay.rs lines 139-149). -/
def open_outbound (config : RelayConfig) : Outbound :=
  match config.transport_type with
  | .Direct => connect_direct config.exit_point
  | .Encrypted => connect_encrypted config.exit_point
  | .WebSocket => connect_websocket config.exit_point

/-- Bytes placed on the wire when `relay_traffic` (relay.rs lines 222-286)
forwards one chunk `buf[..n]` to the outbound leg: `wo.write_all(&buf[..n])`
on the raw `TcpStream` write half emits the chunk verbatim. -/
def wire_write (o : Outbound) (chunk : List Nat) : List Nat :=
  match o with
  | .tcpStream _ => chunk

/-! ## Symmetric encrypted transport: sentinel-client/src/encryption.rs

`SymmetricEncryptedStream` wraps a duplex stream with either AES-256-GCM or
ChaCha20-Poly1305.  The AEAD primitives come from the external `aes-gcm` and
`chacha20poly1305` crates (collaborators outside this repository); they are
modelled as function parameters `seal : key → nonce → plaintext → ciphertext`
and `unseal : key → nonce → ciphertext → Option plaintext`, with bytes as
`List Nat`.  The 12 random nonce bytes drawn from `OsRng` inside
`encrypt_data` are passed in explicitly. -/

/-- The `SymmetricCipher` enum of encryption.rs: which AEAD the stream was
constructed with, together with the key it holds. -/
inductive SymmetricCipher where
  | Aes256Gcm (key : List Nat)
  | ChaCha20Poly1305 (key : List Nat)
deriving DecidableEq, Repr

/-- `SymmetricEncryptedStream::new_aes256` (encryption.rs lines 99-113):
fails unless the key is exactly 32 bytes; `Aes256Gcm::new_from_slice` then
succeeds (it errors only on a wrong-length slice, already excluded). -/
def new_aes256 (key : List Nat) : Except String SymmetricCipher :=
  if key.length ≠ 32 then
    .error "AES-256-GCM requires a 32-byte key"
  else
    .ok (.Aes256Gcm key)

/-- `SymmetricEncryptedStream::new_chacha20` (encryption.rs lines 116-130):
fails unless the key is exactly 32 bytes. -/
def new_chacha20 (key : List Nat) : Except String SymmetricCipher :=
  if key.length ≠ 32 then
    .error "ChaCha20Poly1305 requires a 32-byte key"
  else
    .ok (.ChaCha20Poly1305 key)

/-- `SymmetricEncryptedStream::encrypt_data` (encryption.rs lines 133-154):
seals the plaintext under the stream's cipher with the 12 freshly drawn
nonce bytes and returns `nonce ++ ciphertext` (nonce prepended to the
frame).  `aesSeal`/`chachaSeal` are the external AEAD encrypt primitives. -/
def encrypt_data
    (aesSeal : List Nat → List Nat → List Nat → List Nat)
    (chachaSeal : List Nat → List Nat → List Nat → List Nat)
    (cipher : SymmetricCipher) (nonce_bytes plaintext : List Nat) :
    List Nat :=
  let ciphertext :=
    match cipher with
    | .Aes256Gcm key => aesSeal key nonce_bytes plaintext
    | .ChaCha20Poly1305 key => chachaSeal key nonce_bytes plaintext
  nonce_bytes ++ ciphertext

/-- `SymmetricEncryptedStream::decrypt_data` (encryption.rs lines 157-177):
rejects inputs shorter than 12 bytes, splits off the 12-byte nonce prefix
and opens the remainder under the stream's cipher.  `aesOpen`/`chachaOpen`
are the external AEAD decrypt primitives (`None` models their `Err`). -/
def decrypt_data
    (aesOpen : List Nat → List Nat → List Nat → Option (List Nat))
    (chachaOpen : List Nat → List Nat → List Nat → Option (List Nat))
    (cipher : SymmetricCipher) (encrypted_data : List Nat) :
    Except String (List Nat) :=
  if encrypted_data.length < 12 then
    .error "Encrypted data too short"
  else
    let nonce_bytes := encrypted_data.take 12
    let ciphertext := encrypted_data.drop 12
    let opened :=
      match cipher with
      | .Aes256Gcm key => aesOpen key nonce_bytes ciphertext
      | .ChaCha20Poly1305 key => chachaOpen key nonce_bytes ciphertext
    match opened with
    | some plaintext => .ok plaintext
    | none => .error "decryption failed"

/-! ## Server database: sentinel-server/src/db/mod.rs

The Postgres tables touched by the claims are carried as list-valued state:
`client_tasks` rows and the `clients` table's `status` column (an
association list from client id to status string).  SQL `UPDATE ... WHERE id`
changes existing rows only; the upsert in `save_client` inserts or replaces.
Database calls never fail in this model (the durable store is an external
collaborator; `StoreError` paths are outside the claims under study). -/

/-- One row of the `client_tasks` table, as selected by
`Database::get_pending_tasks` and inserted by `Database::create_task`. -/
structure TaskRow where
  id : String
  client_id : String
  task_type : String
  payload : String
  status : String
  created_at : Int
deriving DecidableEq, Repr

/-- The `match row.task_type.as_str()` in `Database::get_pending_tasks`
(db/mod.rs lines 156-163); an unrecognized tag makes `filter_map` drop the
row. -/
def parseTaskType (s : String) : Option TaskType :=
  if s = "start_relay" then some .StartRelay
  else if s = "stop_relay" then some .StopRelay
  else if s = "update_iptables" then some .UpdateIptables
  else if s = "configure_proxy" then some .ConfigureProxy
  else if s = "update_config" then some .UpdateConfig
  else none

/-- Row-to-`Task` conversion inside the `filter_map` of
`Database::get_pending_tasks` (db/mod.rs lines 155-171). -/
def rowToTask (r : TaskRow) : Option Task :=
  (parseTaskType r.task_type).map
    (fun tt => { id := r.id, task_type := tt,
                 payload := r.payload, created_at := r.created_at })

/-- Ascending order on `created_at`, the sort key of the pending-task
query. -/
def taskRowLE (a b : TaskRow) : Prop :=
  a.created_at ≤ b.created_at

instance : DecidableRel taskRowLE :=
  fun a b => inferInstanceAs (Decidable (a.created_at ≤ b.created_at))

instance : IsTotal TaskRow taskRowLE :=
  ⟨fun a b => Int.le_total a.created_at b.created_at⟩

instance : IsTrans TaskRow taskRowLE :=
  ⟨fun _ _ _ hab hbc => le_trans hab hbc⟩

/-- `ORDER BY created_at ASC` of the pending-task query, modelled as a
sort on `created_at`. -/
def sortByCreated (l : List TaskRow) : List TaskRow :=
  List.insertionSort taskRowLE l

/-- The `WHERE client_id = $1 AND status = 'pending'` filter of the query in
`Database::get_pending_tasks` (db/mod.rs lines 141-151). -/
def pendingRows (dbTasks : List TaskRow) (client_id : String) : List TaskRow :=
  dbTasks.filter (fun r => r.client_id == client_id && r.status == "pending")

/-- `Database::get_pending_tasks` (db/mod.rs lines 132-175): selects the
pending rows for the client ordered by `created_at` ascending and converts
them, dropping rows with unknown task types.  The function runs no `UPDATE`:
the table is not modified (row statuses stay `pending`). -/
def get_pending_tasks (dbTasks : List TaskRow) (client_id : String) :
    List Task :=
  (sortByCreated (pendingRows dbTasks client_id)).filterMap rowToTask

/-- `Database::update_status` (db/mod.rs lines 72-86):
`UPDATE clients SET status = $1 WHERE id = $2` — rewrites the status of an
existing row, inserts nothing. -/
def dbUpdateStatus (dbClients : List (String × String))
    (client_id status : String) : List (String × String) :=
  dbClients.map (fun e => if e.1 == client_id then (e.1, status) else e)

/-- `Database::save_client` (db/mod.rs lines 29-54): upsert of the client
row, binding status `'online'`. -/
def dbSaveClient (dbClients : List (String × String)) (client_id : String) :
    List (String × String) :=
  mapInsert dbClients client_id "online"

/-! ## Fleet registry: sentinel-server/src/manager.rs -/

/-- `ClientState` from sentinel-server/src/manager.rs. -/
structure ClientState where
  info : ClientInfo
  status : ClientStatus
  last_heartbeat : Int
  metrics : Option SystemMetrics
  token : String
deriving DecidableEq, Repr

/-- The state a `ClientManager` closes over: the in-memory
`DashMap<String, ClientState>` (association list with unique keys) plus the
database tables it writes through to.  `dbMetricsHistory` records the
`client_metrics` inserts of `save_metrics`. -/
structure ServerState where
  clients : List (String × ClientState)
  dbTasks : List TaskRow
  dbClients : List (String × String)
  dbMetricsHistory : List (String × SystemMetrics)
deriving DecidableEq, Repr

/-- `ClientManager::register_client` (manager.rs lines 32-49): generates a
fresh token (passed in explicitly, as the UUID draw is nondeterministic),
inserts a new `ClientState` with status `Online` and `last_heartbeat = now`
into the map, upserts the client row, and returns the token. -/
def register_client (st : ServerState) (now : Int) (token : String)
    (info : ClientInfo) : ServerState × String :=
  let state : ClientState :=
    { info := info, status := .Online, last_heartbeat := now,
      metrics := none, token := token }
  ({ st with
     clients := mapInsert st.clients info.id state,
     dbClients := dbSaveClient st.dbClients info.id }, token)

/-- `ClientManager::update_heartbeat` (manager.rs lines 51-62): when the
client id is in the map, resets `last_heartbeat` and sets status `Online`
(also updating the database row); otherwise bails with
`"Client not found: {id}"`.  The supplied token is not an argument: the
function receives only the client id. -/
def update_heartbeat (st : ServerState) (now : Int) (client_id : String) :
    Except String ServerState :=
  if st.clients.any (fun e => e.1 == client_id) then
    .ok { st with
          clients :=
            st.clients.map
              (fun e =>
                if e.1 == client_id then
                  (e.1, { e.2 with last_heartbeat := now, status := .Online })
                else e),
          dbClients := dbUpdateStatus st.dbClients client_id "online" }
  else
    .error ("Client not found: " ++ client_id)

/-- `ClientManager::update_metrics` (manager.rs lines 64-72): stores the
snapshot in the map entry when present (appending a `client_metrics` history
row); a missing client id is silently ignored. -/
def update_metrics (st : ServerState) (client_id : String)
    (metrics : SystemMetrics) : ServerState :=
  if st.clients.any (fun e => e.1 == client_id) then
    { st with
      clients :=
        st.clients.map
          (fun e =>
            if e.1 == client_id then (e.1, { e.2 with metrics := some metrics })
            else e),
      dbMetricsHistory := st.dbMetricsHistory ++ [(client_id, metrics)] }
  else
    st

/-- The ids collected by the scan loop of
`ClientManager::cleanup_inactive_clients` (manager.rs lines 100-107): every
client whose `now - last_heartbeat` strictly exceeds the 120-second timeout,
with no condition on its current status. -/
def cleanupToRemove (st : ServerState) (now : Int) : List String :=
  (st.clients.filter (fun e => 120 < now - e.2.last_heartbeat)).map Prod.fst

/-- `ClientManager::cleanup_inactive_clients` (manager.rs lines 94-116): for
each collected id the entry is removed from the in-memory map
(`self.clients.remove`) and the database row's status is set to
`'offline'`.  Nothing is written back to the map: the record is gone from
the registry. -/
def cleanup_inactive_clients (st : ServerState) (now : Int) : ServerState :=
  let to_remove := cleanupToRemove st now
  { st with
    clients := st.clients.filter (fun e => !(to_remove.contains e.1)),
    dbClients :=
      to_remove.foldl (fun m cid => dbUpdateStatus m cid "offline")
        st.dbClients }

/-! ## RPC handlers: sentinel-server/src/api/mod.rs

Handler failures are `ErrorObjectOwned::owned(ErrorCode::InternalError.code(),
e.to_string(), None)`; `ErrorCode::InternalError.code()` is the JSON-RPC
code -32603. -/

/-- `Result::is_ok` for the embedded fallible operations. -/
def isOkE {ε α : Type} : Except ε α → Bool
  | .ok _ => true
  | .error _ => false

instance {ε α : Type} [DecidableEq ε] [DecidableEq α] :
    DecidableEq (Except ε α) := fun a b =>
  match a, b with
  | .ok x, .ok y =>
      if h : x = y then .isTrue (by rw [h])
      else .isFalse (fun hc => h (Except.ok.inj hc))
  | .error x, .error y =>
      if h : x = y then .isTrue (by rw [h])
      else .isFalse (fun hc => h (Except.error.inj hc))
  | .ok _, .error _ => .isFalse (fun hc => Except.noConfusion hc)
  | .error _, .ok _ => .isFalse (fun hc => Except.noConfusion hc)

/-- The error object a handler returns:
`ErrorObjectOwned::owned(code, message, None)`. -/
structure RpcError where
  code : Int
  message : String
deriving DecidableEq, Repr

/-- `jsonrpsee::types::ErrorCode::InternalError.code()`. -/
def internalErrorCode : Int := -32603

/-- The `client.register` handler (api/mod.rs lines 15-24): registers the
client and answers with `client_id` bound to the empty string literal
`"".to_string()` and the issued token.  (`register_client` itself never
errors in this model, matching a reachable durable store.) -/
def registerHandler (st : ServerState) (now : Int) (token : String)
    (req : RegisterRequest) : ServerState × RegisterResponse :=
  let (st', tok) := register_client st now token req.client_info
  (st', { client_id := "", token := tok })

/-- The `client.heartbeat` handler (api/mod.rs lines 26-44): runs
`update_heartbeat` on `req.client_id` (mapping its failure to a JSON-RPC
InternalError), stores metrics when supplied, fetches the pending tasks and
answers `{status: "ok", tasks}`.  `req.token` is parsed but never read. -/
def heartbeatHandler (st : ServerState) (now : Int) (req : HeartbeatRequest) :
    Except RpcError (ServerState × HeartbeatResponse) :=
  match update_heartbeat st now req.client_id with
  | .error e => .error { code := internalErrorCode, message := e }
  | .ok st1 =>
      let st2 :=
        match req.metrics with
        | some m => update_metrics st1 req.client_id m
        | none => st1
      let tasks := get_pending_tasks st2.dbTasks req.client_id
      .ok (st2, { status := "ok", tasks := tasks })

/-! ## Association-list lemmas

Facts about `List.lookup`, `List.filter` and the map operations above,
needed to reason about the `DashMap` / `HashMap` / SQL-table models. -/

theorem lookup_eq_none_of_not_mem_keys {α : Type} {l : List (String × α)}
    {k : String} (h : ¬ k ∈ l.map Prod.fst) : l.lookup k = none := by
  induction l with
  | nil => rfl
  | cons e t ih =>
    obtain ⟨a, b⟩ := e
    simp only [List.map_cons, List.mem_cons, not_or] at h
    obtain ⟨h1, h2⟩ := h
    rw [List.lookup_cons, beq_false_of_ne h1]
    exact ih h2

theorem lookup_filter_of_nodupKeys {α : Type} (p : String × α → Bool)
    (l : List (String × α)) (hl : (l.map Prod.fst).Nodup) (k : String) :
    (l.filter p).lookup k =
      (l.lookup k).elim none
        (fun v => if p (k, v) = true then some v else none) := by
  induction l with
  | nil => rfl
  | cons e t ih =>
    obtain ⟨a, b⟩ := e
    simp only [List.map_cons, List.nodup_cons] at hl
    obtain ⟨ha, ht⟩ := hl
    by_cases hk : k = a
    · subst hk
      by_cases hp : p (k, b) = true
      · simp [List.filter_cons, hp, List.lookup_cons]
      · rw [List.filter_cons, if_neg (by simp [hp])]
        rw [ih ht, lookup_eq_none_of_not_mem_keys ha]
        rw [List.lookup_cons]
        simp [hp]
    · rw [List.filter_cons]
      by_cases hp : p (a, b) = true
      · rw [if_pos (by simp [hp])]
        rw [List.lookup_cons, beq_false_of_ne hk, List.lookup_cons,
          beq_false_of_ne hk]
        exact ih ht
      · rw [if_neg (by simp [hp])]
        rw [List.lookup_cons, beq_false_of_ne hk]
        exact ih ht

theorem contains_keys_filter_of_nodup {α : Type} (q : String × α → Bool)
    (l : List (String × α)) (hl : (l.map Prod.fst).Nodup) (k : String) :
    ((l.filter q).map Prod.fst).contains k =
      (l.lookup k).elim false (fun v => q (k, v)) := by
  induction l with
  | nil => rfl
  | cons e t ih =>
    obtain ⟨a, b⟩ := e
    simp only [List.map_cons, List.nodup_cons] at hl
    obtain ⟨ha, ht⟩ := hl
    by_cases hk : k = a
    · subst hk
      simp only [List.lookup_cons, beq_self_eq_true]
      by_cases hq : q (k, b) = true
      · simp [List.filter_cons, hq]
      · rw [List.filter_cons, if_neg (by simp [hq])]
        rw [ih ht, lookup_eq_none_of_not_mem_keys ha]
        simp [hq]
    · rw [List.lookup_cons, beq_false_of_ne hk, List.filter_cons]
      by_cases hq : q (a, b) = true
      · rw [if_pos (by simp [hq])]
        simp only [List.map_cons, List.contains_cons]
        rw [beq_false_of_ne hk, Bool.false_or]
        exact ih ht
      · rw [if_neg (by simp [hq])]
        exact ih ht

theorem lookup_dbUpdateStatus_self (m : List (String × String))
    (k s : String) :
    (dbUpdateStatus m k s).lookup k = (m.lookup k).map (fun _ => s) := by
  induction m with
  | nil => rfl
  | cons e t ih =>
    obtain ⟨a, b⟩ := e
    unfold dbUpdateStatus
    by_cases hk : a = k
    · subst hk
      simp [List.lookup_cons]
    · rw [List.map_cons, if_neg (by simp [hk])]
      rw [List.lookup_cons, beq_false_of_ne (Ne.symm hk),
        List.lookup_cons, beq_false_of_ne (Ne.symm hk)]
      exact ih

theorem lookup_dbUpdateStatus_ne (m : List (String × String))
    (c k s : String) (h : k ≠ c) :
    (dbUpdateStatus m c s).lookup k = m.lookup k := by
  induction m with
  | nil => rfl
  | cons e t ih =>
    obtain ⟨a, b⟩ := e
    unfold dbUpdateStatus
    by_cases hc : a = c
    · subst hc
      rw [List.map_cons, if_pos (by simp)]
      rw [List.lookup_cons, beq_false_of_ne h, List.lookup_cons,
        beq_false_of_ne h]
      exact ih
    · rw [List.map_cons, if_neg (by simp [hc])]
      rw [List.lookup_cons, List.lookup_cons]
      cases hak : k == a
      · exact ih
      · rfl

theorem lookup_foldl_offline (l : List String) (m : List (String × String))
    (k : String) :
    (l.foldl (fun acc cid => dbUpdateStatus acc cid "offline") m).lookup k =
      if l.contains k then (m.lookup k).map (fun _ => "offline")
      else m.lookup k := by
  induction l generalizing m with
  | nil => rfl
  | cons c t ih =>
    rw [List.foldl_cons, ih]
    by_cases hck : k = c
    · subst hck
      rw [List.contains_cons, beq_self_eq_true, Bool.true_or, if_pos rfl]
      rw [lookup_dbUpdateStatus_self]
      by_cases ht : t.contains k = true
      · rw [if_pos ht, Option.map_map]
        rfl
      · rw [if_neg ht]
    · rw [List.contains_cons, beq_false_of_ne hck, Bool.false_or]
      rw [lookup_dbUpdateStatus_ne _ _ _ _ hck]

theorem mapInsert_of_mem {α : Type} (m : List (String × α)) (k : String)
    (v : α) (h : m.any (fun e => e.1 == k) = true) :
    mapInsert m k v = m.map (fun e => if e.1 == k then (k, v) else e) := by
  unfold mapInsert
  rw [if_pos h]

theorem keys_mapInsert_of_mem {α : Type} (m : List (String × α)) (k : String)
    (v : α) (h : m.any (fun e => e.1 == k) = true) :
    (mapInsert m k v).map Prod.fst = m.map Prod.fst := by
  rw [mapInsert_of_mem m k v h, List.map_map]
  apply List.map_congr_left
  intro e _
  by_cases he : e.1 = k
  · simp [he]
  · simp [he, beq_false_of_ne he]

theorem lookup_mapInsert_of_mem {α : Type} (m : List (String × α))
    (k : String) (v : α) (h : m.any (fun e => e.1 == k) = true) :
    (mapInsert m k v).lookup k = some v := by
  rw [mapInsert_of_mem m k v h]
  induction m with
  | nil => cases h
  | cons e t ih =>
    obtain ⟨a, b⟩ := e
    rw [List.any_cons] at h
    by_cases hak : a = k
    · subst hak
      rw [List.map_cons, if_pos (by simp)]
      simp [List.lookup_cons]
    · rw [List.map_cons, if_neg (by simp [hak])]
      rw [List.lookup_cons, beq_false_of_ne (Ne.symm hak)]
      refine ih ?_
      rcases Bool.or_eq_true _ _ |>.mp h with h1 | h2
      · exact absurd (eq_of_beq h1) hak
      · exact h2

/-! ## Theorems -/

/-- C9: for every register call, the response's `client_id` field is the
empty string regardless of the identity supplied, and the `token` field is
the issued token — the caller can only learn its id from what it sent. -/
theorem C9_register_response_has_empty_client_id (st : ServerState)
    (now : Int) (token : String) (req : RegisterRequest) :
    (registerHandler st now token req).2.client_id = "" ∧
    (registerHandler st now token req).2.token = token :=
  ⟨rfl, rfl⟩

/-- C4: on a relay whose transport kind is Encrypted, the outbound leg opened
by `handle_relay_connection` is a raw TCP stream to the exit point, and the
bytes placed on the wire for a forwarded chunk are the plaintext chunk
itself (here `[1, 2, 3]`, whose length 3 is even shorter than the 12-byte
nonce prefix an encrypted frame would start with): the claimed AEAD
encryption of each write never happens — `connect_encrypted` leaves it as a
TODO comment. -/
theorem C4_encrypted_relay_forwards_plaintext :
    open_outbound ⟨"127.0.0.1:9001", "10.0.0.5:443", .Encrypted⟩
      = .tcpStream "10.0.0.5:443" ∧
    wire_write (open_outbound ⟨"127.0.0.1:9001", "10.0.0.5:443", .Encrypted⟩)
        [1, 2, 3]
      = [1, 2, 3] ∧
    (wire_write (open_outbound ⟨"127.0.0.1:9001", "10.0.0.5:443", .Encrypted⟩)
        [1, 2, 3]).length < 12 :=
  ⟨rfl, rfl, by decide⟩

/-- C6: constructing the symmetric encrypted transport succeeds exactly for
32-byte keys, for both ciphers: `new_aes256` and `new_chacha20` return `Ok`
when the key length is 32 and an error otherwise. -/
theorem C6_symmetric_ctor_requires_32_byte_key (key : List Nat) :
    isOkE (new_aes256 key) = (key.length == 32) ∧
    isOkE (new_chacha20 key) = (key.length == 32) := by
  unfold new_aes256 new_chacha20
  by_cases h : key.length = 32 <;> simp [h, isOkE]

/-- C7 counterexample: the claim sizes a 1025-byte request as
`ceil(1025/1024) = 2` permits, but both `wait_for_capacity` and
`try_consume` compute `(1025 / 1024).max(1) = 1` permit — rounding down,
not up. -/
theorem C7_counterexample_1025_bytes_one_permit :
    wait_for_capacity_permits 1025 = 1 ∧ try_consume_permits 1025 = 1 ∧
    (1025 + 1023) / 1024 = 2 := by
  decide

/-- C7 (amended): both rate-limiter operations size a request of `n` bytes
as `max(floor(n / 1024), 1)` whole 1-KiB permits — `wait_for_capacity`
awaits `until_ready` exactly that many times — so a 1-byte write consumes
one full permit but a 1025-byte write consumes one permit, not two (the
sizing never exceeds `max n 1024` bytes' worth of budget). -/
theorem C7_amended_floor_permit_sizing (n : Nat) :
    wait_for_capacity_permits n = try_consume_permits n ∧
    until_ready_calls (wait_for_capacity_permits n) = max (n / 1024) 1 ∧
    1 ≤ wait_for_capacity_permits n ∧
    wait_for_capacity_permits n * 1024 ≤ max n 1024 ∧
    wait_for_capacity_permits 1 = 1 ∧
    wait_for_capacity_permits 1025 = 1 := by
  have hcalls : ∀ m, until_ready_calls m = m := by
    intro m
    induction m with
    | zero => rfl
    | succ k ih => simp [until_ready_calls, ih]
  refine ⟨rfl, ?_, ?_, ?_, by decide, by decide⟩
  · rw [hcalls]
    rfl
  · unfold wait_for_capacity_permits
    omega
  · unfold wait_for_capacity_permits
    have h1 : n / 1024 * 1024 ≤ n := Nat.div_mul_le_self n 1024
    omega

/-- C10: a successfully constructed relay connection holds an inbound
listener exactly when its entry point starts with `"0.0.0.0:"` or
`"127.0.0.1:"`; for any other entry point the construction always succeeds
with no listener and touches no network state (outbound-only relay). -/
theorem C10_listener_iff_bind_prefix (net : NetState) (config : RelayConfig)
    (conn : RelayConnection) (net2 : NetState)
    (h : RelayConnection.new net config = .ok (conn, net2)) :
    (conn.listener.isSome = true ↔
      (strStartsWith config.entry_point "0.0.0.0:" = true ∨
       strStartsWith config.entry_point "127.0.0.1:" = true)) ∧
    (strStartsWith config.entry_point "0.0.0.0:" = false →
     strStartsWith config.entry_point "127.0.0.1:" = false →
     conn = { config := config, listener := none } ∧ net2 = net) := by
  unfold RelayConnection.new at h
  by_cases hb : entryPointBindable config.entry_point = true
  · rw [if_pos hb] at h
    unfold entryPointBindable at hb
    rw [Bool.or_eq_true] at hb
    by_cases hc : net.bound.contains config.entry_point = true
    · rw [if_pos hc] at h
      exact absurd h (by simp)
    · rw [if_neg hc] at h
      simp only [Except.ok.injEq, Prod.mk.injEq] at h
      obtain ⟨hconn, hnet⟩ := h
      subst hconn
      refine ⟨by simpa using hb, ?_⟩
      intro hf1 hf2
      rw [hf1, hf2] at hb
      simp at hb
  · rw [if_neg hb] at h
    unfold entryPointBindable at hb
    rw [Bool.or_eq_true] at hb
    simp only [Except.ok.injEq, Prod.mk.injEq] at h
    obtain ⟨hconn, hnet⟩ := h
    subst hconn
    subst hnet
    constructor
    · simp only [Option.isSome_none]
      constructor
      · intro hfalse
        cases hfalse
      · intro hor
        exact absurd hor hb
    · intro _ _
      exact ⟨rfl, rfl⟩

/-- C10 witness: the theorem applied to entry point `"example.com:9000"`,
which matches neither bindable prefix: construction succeeds with no
listener. -/
theorem C10_listener_iff_bind_prefix_witness :
    ((RelayConnection.mk
        ⟨"example.com:9000", "10.0.0.2:80", .Direct⟩ none).listener.isSome
          = true ↔
      (strStartsWith "example.com:9000" "0.0.0.0:" = true ∨
       strStartsWith "example.com:9000" "127.0.0.1:" = true)) ∧
    (strStartsWith "example.com:9000" "0.0.0.0:" = false →
     strStartsWith "example.com:9000" "127.0.0.1:" = false →
     RelayConnection.mk ⟨"example.com:9000", "10.0.0.2:80", .Direct⟩ none
         = { config := ⟨"example.com:9000", "10.0.0.2:80", .Direct⟩,
             listener := none } ∧
       NetState.mk [] = NetState.mk []) :=
  C10_listener_iff_bind_prefix ⟨[]⟩
    ⟨"example.com:9000", "10.0.0.2:80", .Direct⟩
    (RelayConnection.mk ⟨"example.com:9000", "10.0.0.2:80", .Direct⟩ none)
    ⟨[]⟩ (by decide)

/-- Concrete relay config with a bindable entry point, used to exercise
`start_relay` twice on the same identity pair. -/
def exCfg : RelayConfig := ⟨"127.0.0.1:9001", "10.0.0.2:80", .Direct⟩

/-- The manager state after the first successful `start_relay exCfg` from the
empty state: one active job for the pair, constructed at generation 0. -/
def exMgr1 : RelayManager :=
  ⟨[("127.0.0.1:9001:10.0.0.2:80", (⟨exCfg, some "127.0.0.1:9001"⟩, 0))], 1⟩

/-- The network state after the first `start_relay exCfg`: the entry point is
bound. -/
def exNet1 : NetState := ⟨["127.0.0.1:9001"]⟩

/-- C8 counterexample: starting the relay pair
`("127.0.0.1:9001", "10.0.0.2:80")` a second time while its job is active is
not an idempotent no-op — the second `start_relay` constructs a fresh
connection, whose listener bind fails with address-already-in-use, and the
call returns an error. -/
theorem C8_counterexample_second_start_errors :
    start_relay ⟨[], 0⟩ ⟨[]⟩ exCfg = .ok (exMgr1, exNet1) ∧
    start_relay exMgr1 exNet1 exCfg
      = .error "bind failed: address already in use" := by
  constructor <;> decide

/-- C8 (amended): `start_relay` never checks `active_relays` for an existing
job.  With the pair already active and a non-bindable entry point, the second
start succeeds and overwrites the pair's map entry with a freshly constructed
connection carrying the next generation — the in-flight job object is
replaced, not reused — while adding no new map key (so the pair still has
exactly its one entry, now the new job). -/
theorem C8_amended_second_start_replaces_job (mgr : RelayManager)
    (net : NetState) (config : RelayConfig)
    (hactive : mgr.active_relays.any
        (fun e => e.1 == relayId config.entry_point config.exit_point)
      = true)
    (hnb : entryPointBindable config.entry_point = false) :
    start_relay mgr net config =
      .ok (RelayManager.mk
            (mgr.active_relays.map
              (fun e =>
                if e.1 == relayId config.entry_point config.exit_point then
                  (relayId config.entry_point config.exit_point,
                   (RelayConnection.mk config none, mgr.next_gen))
                else e))
            (mgr.next_gen + 1), net) ∧
    (mapInsert mgr.active_relays
        (relayId config.entry_point config.exit_point)
        (RelayConnection.mk config none, mgr.next_gen)).map Prod.fst
      = mgr.active_relays.map Prod.fst ∧
    (mapInsert mgr.active_relays
        (relayId config.entry_point config.exit_point)
        (RelayConnection.mk config none, mgr.next_gen)).lookup
          (relayId config.entry_point config.exit_point)
      = some (RelayConnection.mk config none, mgr.next_gen) := by
  refine ⟨?_, keys_mapInsert_of_mem _ _ _ hactive,
    lookup_mapInsert_of_mem _ _ _ hactive⟩
  unfold start_relay RelayConnection.new
  rw [hnb]
  simp only [Bool.false_eq_true, if_false]
  rw [mapInsert_of_mem _ _ _ hactive]

/-- Concrete relay config whose entry point matches no bindable prefix. -/
def exCfgNB : RelayConfig := ⟨"example.com:9000", "10.0.0.2:80", .Direct⟩

/-- A manager state with an active job for `exCfgNB`'s pair at generation 0. -/
def exMgrNB : RelayManager :=
  ⟨[("example.com:9000:10.0.0.2:80", (⟨exCfgNB, none⟩, 0))], 1⟩

/-- C8 witness: the amended theorem applied to a state whose pair
`("example.com:9000", "10.0.0.2:80")` is already active. -/
theorem C8_amended_second_start_replaces_job_witness :
    start_relay exMgrNB ⟨[]⟩ exCfgNB =
      .ok (RelayManager.mk
            (exMgrNB.active_relays.map
              (fun e =>
                if e.1 == relayId exCfgNB.entry_point exCfgNB.exit_point then
                  (relayId exCfgNB.entry_point exCfgNB.exit_point,
                   (RelayConnection.mk exCfgNB none, exMgrNB.next_gen))
                else e))
            (exMgrNB.next_gen + 1), ⟨[]⟩) ∧
    (mapInsert exMgrNB.active_relays
        (relayId exCfgNB.entry_point exCfgNB.exit_point)
        (RelayConnection.mk exCfgNB none, exMgrNB.next_gen)).map Prod.fst
      = exMgrNB.active_relays.map Prod.fst ∧
    (mapInsert exMgrNB.active_relays
        (relayId exCfgNB.entry_point exCfgNB.exit_point)
        (RelayConnection.mk exCfgNB none, exMgrNB.next_gen)).lookup
          (relayId exCfgNB.entry_point exCfgNB.exit_point)
      = some (RelayConnection.mk exCfgNB none, exMgrNB.next_gen) :=
  C8_amended_second_start_replaces_job exMgrNB ⟨[]⟩ exCfgNB
    (by decide) (by decide)

/-! ### Example fleet states -/

/-- Example static system info. -/
def exSystemInfo : SystemInfo := ⟨"linux", "5.10.0", 4, 1024, 2048⟩

/-- Example registered client identity `c1`. -/
def exInfo : ClientInfo := ⟨"c1", "host1", "10.1.1.1", "0.1.0", [], exSystemInfo⟩

/-- A pending `start_relay` task row for client `c1`. -/
def exTaskRow : TaskRow := ⟨"t1", "c1", "start_relay", "payload1", "pending", 5⟩

/-- The `Task` value `exTaskRow` converts to. -/
def exTask : Task := ⟨"t1", .StartRelay, "payload1", 5⟩

/-- Server state: `c1` registered with token `tokA`, one pending task. -/
def exC1State : ServerState :=
  ⟨[("c1", ⟨exInfo, .Online, 0, none, "tokA"⟩)], [exTaskRow],
   [("c1", "online")], []⟩

/-- `exC1State` after a heartbeat at time 10. -/
def exC1StateB : ServerState :=
  ⟨[("c1", ⟨exInfo, .Online, 10, none, "tokA"⟩)], [exTaskRow],
   [("c1", "online")], []⟩

/-- `exC1StateB` after a heartbeat at time 20. -/
def exC1StateC : ServerState :=
  ⟨[("c1", ⟨exInfo, .Online, 20, none, "tokA"⟩)], [exTaskRow],
   [("c1", "online")], []⟩

/-- C1 counterexample: two successive heartbeats of `c1` both return the
same task `t1` — the first delivery does not remove it or mark it consumed
(the task row still has status `pending` in the state the first call
returns), so it is returned again by the subsequent call. -/
theorem C1_counterexample_task_redelivered :
    heartbeatHandler exC1State 10 ⟨"c1", "tokA", none⟩
      = .ok (exC1StateB, ⟨"ok", [exTask]⟩) ∧
    heartbeatHandler exC1StateB 20 ⟨"c1", "tokA", none⟩
      = .ok (exC1StateC, ⟨"ok", [exTask]⟩) := by
  constructor <;> decide

/-- `update_metrics` never touches the `client_tasks` table. -/
theorem update_metrics_dbTasks (st : ServerState) (cid : String)
    (m : SystemMetrics) : (update_metrics st cid m).dbTasks = st.dbTasks := by
  unfold update_metrics
  by_cases h : st.clients.any (fun e => e.1 == cid) = true
  · rw [if_pos h]
  · rw [if_neg h]

/-- `update_heartbeat` never touches the `client_tasks` table. -/
theorem update_heartbeat_dbTasks (st st1 : ServerState) (now : Int)
    (cid : String) (h : update_heartbeat st now cid = .ok st1) :
    st1.dbTasks = st.dbTasks := by
  unfold update_heartbeat at h
  by_cases hc : st.clients.any (fun e => e.1 == cid) = true
  · rw [if_pos hc] at h
    cases h
    rfl
  · rw [if_neg hc] at h
    cases h

/-- `rowToTask` preserves the creation timestamp. -/
theorem rowToTask_created_at (r : TaskRow) (t : Task)
    (h : rowToTask r = some t) : t.created_at = r.created_at := by
  unfold rowToTask at h
  rcases Option.map_eq_some'.mp h with ⟨tt, _, rfl⟩
  rfl

/-- C1 (amended): `pending_tasks` returns exactly the rows of the task table
that are pending for the agent (with a recognized task type), ordered by
creation time ascending, and an empty list when there are none; but it does
NOT remove them or mark them consumed — a heartbeat leaves the task table
unchanged, so the same tasks are returned again by a subsequent call. -/
theorem C1_amended_pending_sorted_but_not_consumed
    (dbTasks : List TaskRow) (cid : String)
    (st : ServerState) (now : Int) (req : HeartbeatRequest) :
    (get_pending_tasks dbTasks cid).Pairwise
      (fun a b => a.created_at ≤ b.created_at) ∧
    (∀ t, t ∈ get_pending_tasks dbTasks cid ↔
      ∃ r, r ∈ dbTasks ∧ r.client_id = cid ∧ r.status = "pending" ∧
        rowToTask r = some t) ∧
    (match heartbeatHandler st now req with
     | .ok res => res.1.dbTasks
     | .error _ => st.dbTasks) = st.dbTasks := by
  refine ⟨?_, ?_, ?_⟩
  · unfold get_pending_tasks sortByCreated
    refine List.Pairwise.filterMap rowToTask ?_
      (List.sorted_insertionSort taskRowLE (pendingRows dbTasks cid))
    intro a a2 hle b hb b2 hb2
    rw [Option.mem_def] at hb hb2
    rw [rowToTask_created_at a b hb, rowToTask_created_at a2 b2 hb2]
    exact hle
  · intro t
    unfold get_pending_tasks sortByCreated
    constructor
    · intro ht
      rcases List.mem_filterMap.mp ht with ⟨r, hr, hrt⟩
      rw [List.mem_insertionSort] at hr
      rcases List.mem_filter.mp hr with ⟨hmem, hcond⟩
      rw [Bool.and_eq_true] at hcond
      exact ⟨r, hmem, eq_of_beq hcond.1, eq_of_beq hcond.2, hrt⟩
    · rintro ⟨r, hmem, hcid, hstat, hrt⟩
      apply List.mem_filterMap.mpr
      refine ⟨r, ?_, hrt⟩
      rw [List.mem_insertionSort]
      refine List.mem_filter.mpr ⟨hmem, ?_⟩
      rw [hcid, hstat]
      simp
  · unfold heartbeatHandler
    rcases hup : update_heartbeat st now req.client_id with e | st1
    · simp only [hup]
    · simp only [hup]
      cases hm : req.metrics with
      | none =>
          simp only []
          exact update_heartbeat_dbTasks st st1 now req.client_id hup
      | some m =>
          simp only []
          rw [update_metrics_dbTasks]
          exact update_heartbeat_dbTasks st st1 now req.client_id hup

/-- Example registered client identity `c2`. -/
def exInfo2 : ClientInfo := ⟨"c2", "host2", "10.1.1.2", "0.1.0", [], exSystemInfo⟩

/-- Example registered client identity `c3`. -/
def exInfo3 : ClientInfo := ⟨"c3", "host3", "10.1.1.3", "0.1.0", [], exSystemInfo⟩

/-- Fleet state with three clients: `c1` Online with a stale heartbeat,
`c2` in Error status with a stale heartbeat, `c3` Online and fresh. -/
def exC2State : ServerState :=
  ⟨[("c1", ⟨exInfo, .Online, 0, none, "tokA"⟩),
    ("c2", ⟨exInfo2, .Error "boom", 0, none, "tokB"⟩),
    ("c3", ⟨exInfo3, .Online, 100, none, "tokC"⟩)],
   [],
   [("c1", "online"), ("c2", "online"), ("c3", "online")], []⟩

/-- C2 counterexample: the sweep at time 121 deletes the records of both
stale clients from the in-memory registry — including `c2`, whose status is
not Online — instead of keeping the records and only flipping status; only
the durable store keeps a row, downgraded to `offline`. -/
theorem C2_counterexample_sweep_removes_records :
    (cleanup_inactive_clients exC2State 121).clients
      = [("c3", ⟨exInfo3, .Online, 100, none, "tokC"⟩)] ∧
    (cleanup_inactive_clients exC2State 121).dbClients
      = [("c1", "offline"), ("c2", "offline"), ("c3", "online")] := by
  constructor <;> decide

/-- C2 (amended): the sweep removes from the in-memory registry every agent
whose `now - last_heartbeat` strictly exceeds 120 seconds — regardless of
its current status — while setting the agent's durable-store status row (if
one exists) to `offline`; agents within the timeout keep their in-memory
record and durable status untouched. -/
theorem C2_amended_sweep_removes_expired_any_status (st : ServerState)
    (now : Int) (cid : String) (hnodup : (st.clients.map Prod.fst).Nodup) :
    (cleanup_inactive_clients st now).clients.lookup cid =
      (match st.clients.lookup cid with
       | some c => if 120 < now - c.last_heartbeat then none else some c
       | none => none) ∧
    (cleanup_inactive_clients st now).dbClients.lookup cid =
      (match st.clients.lookup cid with
       | some c =>
           if 120 < now - c.last_heartbeat then
             (st.dbClients.lookup cid).map (fun _ => "offline")
           else st.dbClients.lookup cid
       | none => st.dbClients.lookup cid) := by
  have hcontains :
      (cleanupToRemove st now).contains cid =
        (st.clients.lookup cid).elim false
          (fun v => decide (120 < now - v.last_heartbeat)) := by
    unfold cleanupToRemove
    exact contains_keys_filter_of_nodup
      (fun e => decide (120 < now - e.2.last_heartbeat)) st.clients hnodup cid
  constructor
  · simp only [cleanup_inactive_clients]
    rw [lookup_filter_of_nodupKeys _ _ hnodup]
    cases hl : st.clients.lookup cid with
    | none => rfl
    | some c =>
      simp only [hl, hcontains, Option.elim]
      by_cases hex : 120 < now - c.last_heartbeat
      · simp [hex]
      · simp [hex]
  · simp only [cleanup_inactive_clients]
    rw [lookup_foldl_offline]
    cases hl : st.clients.lookup cid with
    | none =>
      have hc0 : (cleanupToRemove st now).contains cid = false := by
        rw [hcontains, hl]
        rfl
      rw [hc0]
      simp
    | some c =>
      simp only [hcontains, hl, Option.elim]
      by_cases hex : 120 < now - c.last_heartbeat
      · simp [hex]
      · simp [hex]

/-- C2 witness: the amended theorem applied to `exC2State` at time 121 for
client `c1`. -/
theorem C2_amended_sweep_removes_expired_any_status_witness :
    (cleanup_inactive_clients exC2State 121).clients.lookup "c1" =
      (match exC2State.clients.lookup "c1" with
       | some c => if 120 < 121 - c.last_heartbeat then none else some c
       | none => none) ∧
    (cleanup_inactive_clients exC2State 121).dbClients.lookup "c1" =
      (match exC2State.clients.lookup "c1" with
       | some c =>
           if 120 < 121 - c.last_heartbeat then
             (exC2State.dbClients.lookup "c1").map (fun _ => "offline")
           else exC2State.dbClients.lookup "c1"
       | none => exC2State.dbClients.lookup "c1") :=
  C2_amended_sweep_removes_expired_any_status exC2State 121 "c1" (by decide)

/-- C3 counterexample: client `c1` holds token `tokA`, yet a heartbeat
carrying the stale token `"stale-token"` succeeds — no token comparison
happens, so the claimed NotFound failure for a stale token never occurs. -/
theorem C3_counterexample_stale_token_accepted :
    isOkE (heartbeatHandler exC1State 10 ⟨"c1", "stale-token", none⟩)
      = true ∧
    ("stale-token" == "tokA") = false := by
  constructor <;> decide

/-- C3 (amended): the heartbeat handler never reads the supplied token (the
result is identical for any two tokens); it fails exactly when the client id
is absent from the registry, and that failure is the manager's
"Client not found" message surfaced as a JSON-RPC InternalError (-32603)
object, not a NotFound code. -/
theorem C3_amended_token_ignored_unknown_id_fails (st : ServerState)
    (now : Int) (cid tok tok2 : String) (m : Option SystemMetrics) :
    heartbeatHandler st now ⟨cid, tok, m⟩
      = heartbeatHandler st now ⟨cid, tok2, m⟩ ∧
    isOkE (heartbeatHandler st now ⟨cid, tok, m⟩)
      = st.clients.any (fun e => e.1 == cid) ∧
    (heartbeatHandler st now ⟨cid, tok, m⟩
        = .error ⟨internalErrorCode, "Client not found: " ++ cid⟩ ∨
      isOkE (heartbeatHandler st now ⟨cid, tok, m⟩) = true) := by
  by_cases h : st.clients.any (fun e => e.1 == cid) = true
  · refine ⟨rfl, ?_, Or.inr ?_⟩ <;>
      cases m <;>
        simp [heartbeatHandler, update_heartbeat, h, update_metrics, isOkE]
  · have h2 : st.clients.any (fun e => e.1 == cid) = false :=
      Bool.eq_false_iff.mpr h
    refine ⟨rfl, ?_, Or.inl ?_⟩ <;>
      simp [heartbeatHandler, update_heartbeat, h2, isOkE, internalErrorCode]

/-- C5: for every 32-byte key and any plaintext, decrypting the encryption
of that plaintext — under either AES-256-GCM or ChaCha20-Poly1305, assuming
the external AEAD primitives invert each other — returns the original
plaintext (the 12-byte nonce prepended by `encrypt_data` is split back off
by `decrypt_data`); and any input shorter than the 12-byte nonce length
fails decryption for both ciphers. -/
theorem C5_roundtrip_and_short_input_fails
    (aesSeal chachaSeal : List Nat → List Nat → List Nat → List Nat)
    (aesOpen chachaOpen : List Nat → List Nat → List Nat → Option (List Nat))
    (key nonce plaintext data : List Nat)
    (haes : ∀ k n m, aesOpen k n (aesSeal k n m) = some m)
    (hch : ∀ k n m, chachaOpen k n (chachaSeal k n m) = some m)
    (hkey : key.length = 32) (hnonce : nonce.length = 12)
    (hshort : data.length < 12) :
    decrypt_data aesOpen chachaOpen (.Aes256Gcm key)
        (encrypt_data aesSeal chachaSeal (.Aes256Gcm key) nonce plaintext)
      = .ok plaintext ∧
    decrypt_data aesOpen chachaOpen (.ChaCha20Poly1305 key)
        (encrypt_data aesSeal chachaSeal (.ChaCha20Poly1305 key) nonce
          plaintext)
      = .ok plaintext ∧
    decrypt_data aesOpen chachaOpen (.Aes256Gcm key) data
      = .error "Encrypted data too short" ∧
    decrypt_data aesOpen chachaOpen (.ChaCha20Poly1305 key) data
      = .error "Encrypted data too short" := by
  have hlen1 : ¬ (nonce ++ aesSeal key nonce plaintext).length < 12 := by
    rw [List.length_append, hnonce]
    omega
  have hlen2 : ¬ (nonce ++ chachaSeal key nonce plaintext).length < 12 := by
    rw [List.length_append, hnonce]
    omega
  refine ⟨?_, ?_, ?_, ?_⟩
  · show decrypt_data aesOpen chachaOpen (.Aes256Gcm key)
        (nonce ++ aesSeal key nonce plaintext) = .ok plaintext
    unfold decrypt_data
    rw [if_neg hlen1]
    simp only [List.take_left' hnonce, List.drop_left' hnonce, haes]
  · show decrypt_data aesOpen chachaOpen (.ChaCha20Poly1305 key)
        (nonce ++ chachaSeal key nonce plaintext) = .ok plaintext
    unfold decrypt_data
    rw [if_neg hlen2]
    simp only [List.take_left' hnonce, List.drop_left' hnonce, hch]
  · unfold decrypt_data
    rw [if_pos hshort]
  · unfold decrypt_data
    rw [if_pos hshort]

/-- C5 witness: the round-trip theorem applied to a concrete 32-byte key,
concrete 12-byte nonce, plaintext `[7, 8]` and the 3-byte input
`[1, 2, 3]`, with the AEAD primitives instantiated by a trivially correct
seal/open pair. -/
theorem C5_roundtrip_and_short_input_fails_witness :
    decrypt_data (fun _ _ c => some c) (fun _ _ c => some c)
        (.Aes256Gcm (List.replicate 32 0))
        (encrypt_data (fun _ _ m => m) (fun _ _ m => m)
          (.Aes256Gcm (List.replicate 32 0)) (List.replicate 12 0) [7, 8])
      = .ok [7, 8] ∧
    decrypt_data (fun _ _ c => some c) (fun _ _ c => some c)
        (.ChaCha20Poly1305 (List.replicate 32 0))
        (encrypt_data (fun _ _ m => m) (fun _ _ m => m)
          (.ChaCha20Poly1305 (List.replicate 32 0)) (List.replicate 12 0)
          [7, 8])
      = .ok [7, 8] ∧
    decrypt_data (fun _ _ c => some c) (fun _ _ c => some c)
        (.Aes256Gcm (List.replicate 32 0)) [1, 2, 3]
      = .error "Encrypted data too short" ∧
    decrypt_data (fun _ _ c => some c) (fun _ _ c => some c)
        (.ChaCha20Poly1305 (List.replicate 32 0)) [1, 2, 3]
      = .error "Encrypted data too short" :=
  C5_roundtrip_and_short_input_fails
    (fun _ _ m => m) (fun _ _ m => m)
    (fun _ _ c => some c) (fun _ _ c => some c)
    (List.replicate 32 0) (List.replicate 12 0) [7, 8] [1, 2, 3]
    (fun _ _ _ => rfl) (fun _ _ _ => rfl)
    (by decide) (by decide) (by decide)

end Sentinel
